import Mathlib

/-!
Shallow embedding of the playlist-sync engine
(`src/app/utils/navidrome.py`, `src/app/utils/spotify.py`): the similarity
scorer, track resolver, resolution batch, playlist reconciler, missing-track
reporter and the per-playlist orchestration loop, together with theorems
checking the natural-language specification against this embedding.

Numeric scores are modelled as exact rationals (`ℚ`); Python `float`
arithmetic on these small weighted sums is treated as exact.  Collaborator
calls (the Subsonic connection, the Spotify client, the file system) are
modelled as oracles: records of response values, where `Except` captures a
call that raises.  Side effects are collected in an explicit trace.
-/

namespace PlaylistSync

/-- Modelled from the spec: `Track` (§3) from `helperClasses.py`, which is not
part of the sources; a plain record `{title, artist, album, url}`, all
strings. -/
structure Track where
  title : String
  artist : String
  album : String
  url : String
deriving DecidableEq, Repr

/-- Modelled from the spec: `Playlist` (§3) from `helperClasses.py`, which is
not part of the sources; `{id, name, description, poster}`, all strings, the
name already carrying any configured suffix. -/
structure Playlist where
  id : String
  name : String
  description : String
  poster : String
deriving DecidableEq, Repr

/-- Modelled from the spec: the slice of `UserInputs` (§6 configuration
surface) from `helperClasses.py` that the reconciliation engine reads. -/
structure UserInputs where
  write_missing_as_csv : Bool
  add_playlist_description : Bool
  append_instead_of_sync : Bool
  match_confidence_threshold : ℚ
deriving DecidableEq, Repr

/-- One row of a Navidrome `search2` response
(`candidate.get("title")` etc. in `navidrome.py`): a JSON object whose
fields may each be absent. -/
structure Candidate where
  id : Option String
  title : Option String
  artist : Option String
  album : Option String
deriving DecidableEq, Repr

/-- One entry of a Navidrome `getPlaylists` response
(`item.get("name")`, `existing.get("id")` in `navidrome.py`). -/
structure NavPlaylist where
  id : Option String
  name : Option String
deriving DecidableEq, Repr

/-- A duck-typed API field that is sometimes absent, sometimes a single
object, sometimes a list (the input shape of `_ensure_iterable_songs`). -/
inductive ApiList (α : Type) where
  | absent : ApiList α
  | single (a : α) : ApiList α
  | many (l : List α) : ApiList α
deriving DecidableEq, Repr

/-- `_ensure_iterable_songs` (navidrome.py lines 83-88): normalize an
absent / single / list field into a list. -/
def _ensure_iterable_songs {α : Type} : ApiList α → List α
  | .absent => []
  | .single a => [a]
  | .many l => l

/-- Python exception kinds distinguished by the engine's handlers:
`RuntimeError` (raised by the engine itself and caught by
`except RuntimeError`) versus any other exception. -/
inductive PyErr where
  | runtime : PyErr
  | other : PyErr
deriving DecidableEq, Repr

/-- Python's `str(x)` on an optional string (`str(existing.get("id"))` in
`_ensure_playlist_id`): `str(None)` is the literal string `"None"`. -/
def pyStr : Option String → String
  | some s => s
  | none => "None"

/-! ## Similarity Scorer -/

/-- Python `str.lower`, character-wise case folding, written on the
character list so that it evaluates in the kernel. -/
def strLower (s : String) : String := ⟨s.data.map Char.toLower⟩

/-- Python `str.strip`: drop whitespace from both ends of the string. -/
def strStrip (s : String) : String :=
  ⟨(((s.data.dropWhile Char.isWhitespace).reverse).dropWhile Char.isWhitespace).reverse⟩

/-- `_normalize` (navidrome.py lines 65-66):
`value.lower().strip() if value else ""`.  `None` and the empty string are
falsy. -/
def _normalize : Option String → String
  | none => ""
  | some s => if s.isEmpty then "" else strStrip (strLower s)

/-- The `matches` count of difflib's `SequenceMatcher.quick_ratio` (Python
standard library, used at navidrome.py line 72): for each element of `a`
still available in `b` count one — i.e. the multiset intersection,
`List.bagInter`. -/
def quickRatioMatches (a b : List Char) : ℕ :=
  (a.bagInter b).length

/-- difflib's `_calculate_ratio(matches, length)`:
`2.0 * matches / length` guarding `length == 0` with `1.0`. -/
def _calculate_ratio (m len : ℕ) : ℚ :=
  if len = 0 then 1 else 2 * (m : ℚ) / (len : ℚ)

/-- `SequenceMatcher(None, a, b).quick_ratio()` for strings `a`, `b`. -/
def quick_ratio (a b : String) : ℚ :=
  _calculate_ratio (quickRatioMatches a.data b.data) (a.length + b.length)

/-- `_sequence_score` (navidrome.py lines 69-72): `0.0` when either string
is empty, otherwise the quick ratio. -/
def _sequence_score (a b : String) : ℚ :=
  if a.isEmpty ∨ b.isEmpty then 0 else quick_ratio a b

/-- `_score_candidate` (navidrome.py lines 75-80): weighted sum of the
title, artist and album similarities. -/
def _score_candidate (candidate : Candidate) (track : Track) : ℚ :=
  let title_score := _sequence_score (_normalize candidate.title) (_normalize (some track.title))
  let artist_score := _sequence_score (_normalize candidate.artist) (_normalize (some track.artist))
  let album_score := _sequence_score (_normalize candidate.album) (_normalize (some track.album))
  title_score * (6/10) + artist_score * (3/10) + album_score * (1/10)

/-- The spec's `similarity(a, b)` (§4.1): `_sequence_score` applied to the
normalized inputs, exactly as the engine composes the two at every call
site of `_score_candidate`. -/
def similarity (a b : String) : ℚ :=
  _sequence_score (_normalize (some a)) (_normalize (some b))

/-! ## Track Resolver -/

/-- The recursion of `_pick_best_match` (navidrome.py lines 114-122):
running best candidate and best score, updated only on a strict `>`,
starting from `(None, 0.0)`. -/
def _pick_go (track : Track) (best : Option Candidate) (bestScore : ℚ) :
    List Candidate → Option Candidate × ℚ
  | [] => (best, bestScore)
  | c :: rest =>
    let score := _score_candidate c track
    if bestScore < score then _pick_go track (some c) score rest
    else _pick_go track best bestScore rest

/-- `_pick_best_match` (navidrome.py lines 114-122). -/
def _pick_best_match (candidates : List Candidate) (track : Track) :
    Option Candidate × ℚ :=
  _pick_go track none 0 candidates

/-- The per-track acceptance step inlined in
`_get_available_navidrome_tracks` (navidrome.py lines 140-145 and 165-166):
the winner must exist, its score must reach the threshold
(`best_score >= threshold`), and its `id` field must be truthy
(present and non-empty); the accepted identifier is the id itself
(`str` of a string).  `none` means the track goes to `missing_tracks`
(unless it is a duplicate, which is decided by the caller). -/
def _resolve_one (candidates : List Candidate) (track : Track) (threshold : ℚ) :
    Option String :=
  match _pick_best_match candidates track with
  | (some best, best_score) =>
    if threshold ≤ best_score then
      match best.id with
      | some track_id => if track_id.isEmpty then none else some track_id
      | none => none
    else none
  | (none, _) => none

/-- The maximal candidate score of a list (`best_score` reached by the
loop): fold of `max` over the scores, from the loop's initial `0.0`. -/
def maxScore (candidates : List Candidate) (track : Track) : ℚ :=
  (candidates.map (fun c => _score_candidate c track)).foldl max 0

/-! ## Resolution Batch -/

/-- One iteration of the loop of `_get_available_navidrome_tracks`
(navidrome.py lines 138-176) on the accumulator
`(available_ids, available_id_set, missing_tracks)`; the set is carried as
the list of inserted identifiers (only membership and insertion are used). -/
def _available_step (threshold : ℚ)
    (st : List String × List String × List Track)
    (q : Track × List Candidate) :
    List String × List String × List Track :=
  match _resolve_one q.2 q.1 threshold with
  | some track_id =>
    if track_id ∈ st.2.1 then st
    else (st.1 ++ [track_id], track_id :: st.2.1, st.2.2)
  | none => (st.1, st.2.1, st.2.2 ++ [q.1])

/-- The loop of `_get_available_navidrome_tracks` run over an explicit list
of `(track, candidates-returned-for-it)` pairs — one pair per collaborator
search call, so an arbitrary collaborator behavior is just an arbitrary
list of pairs. -/
def _resolve_queries (threshold : ℚ) (queries : List (Track × List Candidate)) :
    List String × List Track :=
  let st := queries.foldl (_available_step threshold) ([], [], [])
  (st.1, st.2.2)

/-! ## Navidrome collaborator and effect traces -/

/-- The Navidrome connection as an oracle: the outcome of each call the
engine makes.  `Except.error` is a call that raises; the payload of a
successful call is the field the engine extracts from the JSON response. -/
structure Navidrome where
  search2 : String → Except PyErr (ApiList Candidate)
  getPlaylists : Except PyErr (ApiList NavPlaylist)
  createPlaylist : String → Except PyErr (Option String)
  deletePlaylist : Option String → Except PyErr Unit
  updatePlaylistAdd : String → List String → Except PyErr Unit
  updatePlaylistComment : String → String → Except PyErr Unit

/-- Observable destination-side calls and the reporter invocation, in
program order. -/
inductive Effect where
  | getPlaylistsCall : Effect
  | createCall (name : String) : Effect
  | deleteCall (pid : Option String) : Effect
  | addTracksCall (pid : String) (ids : List String) : Effect
  | setDescriptionCall (pid : String) (text : String) : Effect
  | reportMissing (name : String) (missing : List Track) (enabled : Bool) : Effect
  | syncStarted (name : String) : Effect
deriving DecidableEq, Repr

/-- `_search_tracks` (navidrome.py lines 91-111): join the non-empty parts
of title and artist; an empty query short-circuits to `[]`; a raising
search degrades to `[]`; the response's `song` field is normalized. -/
def _search_tracks (nav : Navidrome) (track : Track) : List Candidate :=
  let query_parts := [track.title, track.artist]
  let query := String.intercalate " " (query_parts.filter (fun p => ¬p.isEmpty))
  if query.isEmpty then []
  else
    match nav.search2 query with
    | .error _ => []
    | .ok songs => _ensure_iterable_songs songs

/-- `_get_available_navidrome_tracks` (navidrome.py lines 125-177): search
once per track, in order, and fold with the batch step. -/
def _get_available_navidrome_tracks (nav : Navidrome) (tracks : List Track)
    (threshold : ℚ) : List String × List Track :=
  _resolve_queries threshold (tracks.map (fun t => (t, _search_tracks nav t)))

/-- `_find_existing_playlist` (navidrome.py lines 180-191): a raising
`getPlaylists` is caught, logged and turned into `None`; otherwise the
first entry whose `name` field equals the target name. -/
def _find_existing_playlist (nav : Navidrome) (playlist_name : String) :
    List Effect × Option NavPlaylist :=
  ([.getPlaylistsCall],
    match nav.getPlaylists with
    | .error _ => none
    | .ok response =>
      (_ensure_iterable_songs response).find?
        (fun item => decide (item.name = some playlist_name)))

/-- `_create_playlist` (navidrome.py lines 194-203): the `createPlaylist`
call is NOT wrapped in a try block, so an exception it raises propagates
unchanged; a response without an id raises `RuntimeError`. -/
def _create_playlist (nav : Navidrome) (playlist_name : String) :
    List Effect × Except PyErr String :=
  ([.createCall playlist_name],
    match nav.createPlaylist playlist_name with
    | .error e => .error e
    | .ok none => .error .runtime
    | .ok (some playlist_id) => .ok playlist_id)

/-- `_ensure_playlist_id` (navidrome.py lines 206-228): look up by name;
if found and not append, delete (a raising delete is re-raised as
`RuntimeError`) and then create; if found and append, reuse
`str(existing.get("id"))`; if not found, create. -/
def _ensure_playlist_id (nav : Navidrome) (playlist : Playlist)
    (append : Bool) : List Effect × Except PyErr String :=
  let found := _find_existing_playlist nav playlist.name
  match found.2, append with
  | some existing, false =>
    (match nav.deletePlaylist existing.id with
     | .ok _ =>
       let created := _create_playlist nav playlist.name
       (found.1 ++ [.deleteCall existing.id] ++ created.1, created.2)
     | .error _ => (found.1 ++ [.deleteCall existing.id], .error .runtime))
  | some existing, true => (found.1, .ok (pyStr existing.id))
  | none, _ =>
    let created := _create_playlist nav playlist.name
    (found.1 ++ created.1, created.2)

/-- `_add_tracks` (navidrome.py lines 231-246): no call when the id list is
empty; a raising `updatePlaylist` is re-raised as `RuntimeError`. -/
def _add_tracks (nav : Navidrome) (playlist_id : String)
    (track_ids : List String) : List Effect × Except PyErr Unit :=
  if track_ids.isEmpty then ([], .ok ())
  else
    ([.addTracksCall playlist_id track_ids],
      match nav.updatePlaylistAdd playlist_id track_ids with
      | .ok _ => .ok ()
      | .error _ => .error .runtime)

/-! ## Missing-Track Reporter -/

/-- The file-system collaborator: which artifacts currently exist, plus
fault injection for the write and unlink system calls (`some e` means the
call raises `e`). -/
structure FS where
  files : List String
  writeErr : String → Option PyErr
  unlinkErr : String → Option PyErr

/-- The artifact key used by both `_write_csv` and `_delete_csv`:
`f"{name}.csv"` under the data folder. -/
def _csv_file (name : String) : String := name ++ ".csv"

/-- `_write_csv` (navidrome.py lines 15-27): create or overwrite the
artifact for `name`; a raising open/write leaves the store unchanged. -/
def _write_csv (_tracks : List Track) (name : String) (fs : FS) :
    FS × Except PyErr Unit :=
  match fs.writeErr (_csv_file name) with
  | some e => (fs, .error e)
  | none =>
    ({ fs with files := if _csv_file name ∈ fs.files then fs.files
                        else _csv_file name :: fs.files }, .ok ())

/-- `_delete_csv` (navidrome.py lines 30-35): unlink only when the file
exists; absence is not an error.  Unlinking removes the path from the
store (a path exists at most once on a file system, so removal filters it
out). -/
def _delete_csv (name : String) (fs : FS) : FS × Except PyErr Unit :=
  if _csv_file name ∈ fs.files then
    match fs.unlinkErr (_csv_file name) with
    | some e => (fs, .error e)
    | none =>
      ({ fs with files := fs.files.filter (fun f => decide (f ≠ _csv_file name)) },
        .ok ())
  else (fs, .ok ())

/-- `_persist_missing_tracks` (navidrome.py lines 38-62): no-op when
disabled; write when there are missing tracks, delete the stale artifact
otherwise; both arms swallow every exception (logged only). -/
def _persist_missing_tracks (playlist_name : String)
    (missing_tracks : List Track) (enabled : Bool) (fs : FS) :
    FS × Except PyErr Unit :=
  if ¬enabled then (fs, .ok ())
  else if ¬missing_tracks.isEmpty then
    ((_write_csv missing_tracks playlist_name fs).1, .ok ())
  else
    ((_delete_csv playlist_name fs).1, .ok ())

/-! ## Playlist Reconciler and Orchestrator loop -/

/-- `update_or_create_navidrome_playlist` (navidrome.py lines 249-312).
Returns the trace of destination calls, the file-system state after the
reporter, and the outcome (`.error` is an exception escaping the function;
only `RuntimeError` is caught by its handlers). -/
def update_or_create_navidrome_playlist (nav : Navidrome)
    (playlist : Playlist) (tracks : List Track) (userInputs : UserInputs)
    (fs : FS) : List Effect × FS × Except PyErr Unit :=
  let batch := _get_available_navidrome_tracks nav tracks
    userInputs.match_confidence_threshold
  let available_track_ids := batch.1
  let missing_tracks := batch.2
  if available_track_ids.isEmpty then
    ([.reportMissing playlist.name missing_tracks userInputs.write_missing_as_csv],
      (_persist_missing_tracks playlist.name missing_tracks
        userInputs.write_missing_as_csv fs).1, .ok ())
  else
    let ensured := _ensure_playlist_id nav playlist userInputs.append_instead_of_sync
    match ensured.2 with
    | .error .runtime => (ensured.1, fs, .ok ())
    | .error .other => (ensured.1, fs, .error .other)
    | .ok playlist_id =>
      let added := _add_tracks nav playlist_id available_track_ids
      match added.2 with
      | .error _ => (ensured.1 ++ added.1, fs, .ok ())
      | .ok _ =>
        let descr :=
          if ¬playlist.description.isEmpty ∧ userInputs.add_playlist_description then
            [Effect.setDescriptionCall playlist_id playlist.description]
          else []
        (ensured.1 ++ added.1 ++ descr ++
          [.reportMissing playlist.name missing_tracks userInputs.write_missing_as_csv],
          (_persist_missing_tracks playlist.name missing_tracks
            userInputs.write_missing_as_csv fs).1, .ok ())

/-- The per-playlist loop of `spotify_playlist_sync` (spotify.py lines
162-175): fetched playlists and their track lists are collaborator data;
a playlist with no tracks is skipped; `update_or_create_navidrome_playlist`
is invoked with no surrounding try block, so an exception it raises stops
the loop. -/
def spotify_playlist_sync (nav : Navidrome) (playlists : List Playlist)
    (tracksFor : Playlist → List Track) (userInputs : UserInputs) (fs : FS) :
    List Effect × FS × Except PyErr Unit :=
  match playlists with
  | [] => ([], fs, .ok ())
  | p :: rest =>
    if (tracksFor p).isEmpty then
      let r := spotify_playlist_sync nav rest tracksFor userInputs fs
      (.syncStarted p.name :: r.1, r.2.1, r.2.2)
    else
      let one := update_or_create_navidrome_playlist nav p (tracksFor p) userInputs fs
      match one.2.2 with
      | .ok _ =>
        let r := spotify_playlist_sync nav rest tracksFor userInputs one.2.1
        (.syncStarted p.name :: one.1 ++ r.1, r.2.1, r.2.2)
      | .error e => (.syncStarted p.name :: one.1, one.2.1, .error e)

/-! ## Concrete fixtures used by witnesses and counterexamples -/

/-- A wanted track with title `"a"` and no artist/album. -/
def trackA : Track := ⟨"a", "", "", ""⟩

/-- A candidate with the given id whose title matches `trackA` exactly:
its score against `trackA` is `3/5`. -/
def candMatch (i : String) : Candidate := ⟨some i, some "a", none, none⟩

/-- A candidate whose title shares no character with `trackA`: score `0`. -/
def candMiss : Candidate := ⟨some "x", some "b", none, none⟩

/-- A candidate with no title/artist/album fields: score `0` against any
track. -/
def candBlank (i : String) : Candidate := ⟨some i, none, none, none⟩

/-- An empty fault-free artifact store. -/
def fs0 : FS := ⟨[], fun _ => none, fun _ => none⟩

/-- A fault-free artifact store already holding `a.csv`. -/
def fsA : FS := ⟨["a.csv"], fun _ => none, fun _ => none⟩

/-- Configuration used by the concrete runs: csv reporting on, descriptions
on, replace mode, threshold `3/5`. -/
def uiStd : UserInputs := ⟨true, true, false, 3/5⟩

/-- Concrete playlists. -/
def p1 : Playlist := ⟨"sp1", "P1", "", ""⟩

def p2 : Playlist := ⟨"sp2", "P2", "", ""⟩

def pP : Playlist := ⟨"sp", "P", "", ""⟩

/-- A connection whose `getPlaylists` raises; search finds a matching
candidate and all mutation calls succeed. -/
def navListFail : Navidrome where
  search2 := fun _ => .ok (.many [candMatch "id1"])
  getPlaylists := .error .other
  createPlaylist := fun _ => .ok (some "np1")
  deletePlaylist := fun _ => .ok ()
  updatePlaylistAdd := fun _ _ => .ok ()
  updatePlaylistComment := fun _ _ => .ok ()

/-- A connection whose `createPlaylist` call raises a non-`RuntimeError`
exception; everything else succeeds and no playlist exists yet. -/
def navCreateRaise : Navidrome where
  search2 := fun _ => .ok (.many [candMatch "id1"])
  getPlaylists := .ok (.many [])
  createPlaylist := fun _ => .error .other
  deletePlaylist := fun _ => .ok ()
  updatePlaylistAdd := fun _ _ => .ok ()
  updatePlaylistComment := fun _ _ => .ok ()

/-- A connection on which `deletePlaylist` and `updatePlaylist` raise while
`createPlaylist` succeeds; playlist `P1` already exists. -/
def navFlaky : Navidrome where
  search2 := fun _ => .ok (.many [candMatch "id1"])
  getPlaylists := .ok (.many [⟨some "pid9", some "P1"⟩])
  createPlaylist := fun _ => .ok (some "np1")
  deletePlaylist := fun _ => .error .other
  updatePlaylistAdd := fun _ _ => .error .other
  updatePlaylistComment := fun _ _ => .error .other

/-- A fault-free connection on which playlist `P` already exists with id
`pid9`. -/
def navFound : Navidrome where
  search2 := fun _ => .ok (.many [candMatch "id1"])
  getPlaylists := .ok (.many [⟨some "pid9", some "P"⟩])
  createPlaylist := fun _ => .ok (some "new1")
  deletePlaylist := fun _ => .ok ()
  updatePlaylistAdd := fun _ _ => .ok ()
  updatePlaylistComment := fun _ _ => .ok ()

/-- A connection whose search returns no `song` field at all. -/
def navEmptySearch : Navidrome where
  search2 := fun _ => .ok .absent
  getPlaylists := .ok (.many [])
  createPlaylist := fun _ => .ok (some "np1")
  deletePlaylist := fun _ => .ok ()
  updatePlaylistAdd := fun _ _ => .ok ()
  updatePlaylistComment := fun _ _ => .ok ()

/-! ## Helper lemmas on `_pick_go` -/

theorem le_foldl_max (l : List ℚ) (b : ℚ) : b ≤ l.foldl max b := by
  induction l generalizing b with
  | nil => exact le_refl b
  | cons x rest ih =>
    rw [List.foldl_cons]
    exact le_trans (le_max_left b x) (ih (max b x))

theorem mem_le_foldl_max (l : List ℚ) : ∀ (b : ℚ), ∀ x ∈ l, x ≤ l.foldl max b := by
  induction l with
  | nil => intro b x hx; cases hx
  | cons y rest ih =>
    intro b x hx
    rw [List.foldl_cons]
    rcases List.mem_cons.mp hx with h | h
    · subst h
      exact le_trans (le_max_right b x) (le_foldl_max rest (max b x))
    · exact ih (max b y) x h

theorem pick_go_snd (track : Track) (l : List Candidate)
    (best : Option Candidate) (b : ℚ) :
    (_pick_go track best b l).2 =
      (l.map (fun c => _score_candidate c track)).foldl max b := by
  induction l generalizing best b with
  | nil => rfl
  | cons c rest ih =>
    rw [List.map_cons, List.foldl_cons]
    show (if b < _score_candidate c track then
        _pick_go track (some c) (_score_candidate c track) rest
      else _pick_go track best b rest).2 = _
    by_cases h : b < _score_candidate c track
    · rw [if_pos h, ih, max_eq_right (le_of_lt h)]
    · rw [if_neg h, ih, max_eq_left (not_lt.mp h)]

theorem pick_go_stay (track : Track) (l : List Candidate)
    (best : Option Candidate) (b : ℚ)
    (h : (l.map (fun c => _score_candidate c track)).foldl max b = b) :
    _pick_go track best b l = (best, b) := by
  induction l generalizing best b with
  | nil => rfl
  | cons c rest ih =>
    rw [List.map_cons, List.foldl_cons] at h
    have hble := le_foldl_max (rest.map (fun c => _score_candidate c track))
      (max b (_score_candidate c track))
    rw [h] at hble
    have hsb : _score_candidate c track ≤ b :=
      le_trans (le_max_right _ _) hble
    have hmax : max b (_score_candidate c track) = b := max_eq_left hsb
    rw [hmax] at h
    show (if b < _score_candidate c track then
        _pick_go track (some c) (_score_candidate c track) rest
      else _pick_go track best b rest) = (best, b)
    rw [if_neg (not_lt.mpr hsb)]
    exact ih best b h

theorem pick_go_found (track : Track) (l : List Candidate)
    (best : Option Candidate) (b : ℚ)
    (h : b < (l.map (fun c => _score_candidate c track)).foldl max b) :
    _pick_go track best b l =
      (l.find? (fun c => decide
          ((l.map (fun c => _score_candidate c track)).foldl max b ≤
            _score_candidate c track)),
        (l.map (fun c => _score_candidate c track)).foldl max b) := by
  induction l generalizing best b with
  | nil => exact absurd h (lt_irrefl b)
  | cons c rest ih =>
    rw [List.map_cons, List.foldl_cons] at h ⊢
    show (if b < _score_candidate c track then
        _pick_go track (some c) (_score_candidate c track) rest
      else _pick_go track best b rest) = _
    by_cases hb : b < _score_candidate c track
    · rw [if_pos hb]
      rw [max_eq_right (le_of_lt hb)] at h ⊢
      by_cases hs : _score_candidate c track <
          (rest.map (fun c => _score_candidate c track)).foldl max
            (_score_candidate c track)
      · rw [ih (some c) (_score_candidate c track) hs,
          List.find?_cons_of_neg]
        simp only [decide_eq_true_eq]
        exact not_le.mpr hs
      · have heq : (rest.map (fun c => _score_candidate c track)).foldl max
            (_score_candidate c track) = _score_candidate c track :=
          le_antisymm (not_lt.mp hs) (le_foldl_max _ _)
        rw [pick_go_stay track rest (some c) (_score_candidate c track) heq,
          heq, List.find?_cons_of_pos]
        simp only [decide_eq_true_eq]
        exact le_refl _
    · rw [if_neg hb]
      rw [max_eq_left (not_lt.mp hb)] at h ⊢
      rw [ih best b h, List.find?_cons_of_neg]
      simp only [decide_eq_true_eq]
      exact not_le.mpr (lt_of_le_of_lt (not_lt.mp hb) h)

/-! ## Scorer lemmas (claim C9) -/

theorem quickRatioMatches_comm (a b : List Char) :
    quickRatioMatches a b = quickRatioMatches b a := by
  unfold quickRatioMatches
  rw [← Multiset.coe_card, ← Multiset.coe_inter,
    ← Multiset.coe_card (b.bagInter a), ← Multiset.coe_inter,
    Multiset.inter_comm]

theorem quick_ratio_comm (a b : String) : quick_ratio a b = quick_ratio b a := by
  unfold quick_ratio
  rw [quickRatioMatches_comm, Nat.add_comm]

theorem sequence_score_comm (a b : String) :
    _sequence_score a b = _sequence_score b a := by
  unfold _sequence_score
  by_cases ha : a.isEmpty <;> by_cases hb : b.isEmpty <;>
    simp [ha, hb, quick_ratio_comm a b]

/-- C9: `similarity` is symmetric, and it returns exactly `0` whenever
either input normalizes to the empty string. -/
theorem c9_similarity_symm_and_empty_zero (a b : String) :
    similarity a b = similarity b a ∧
      ((_normalize (some a)).isEmpty = true ∨ (_normalize (some b)).isEmpty = true →
        similarity a b = 0) := by
  constructor
  · exact sequence_score_comm _ _
  · intro h
    unfold similarity _sequence_score
    simp [h]

/-- Witness for C9 at a concrete input: `" A "` normalizes to `"a"`, `" "`
normalizes to the empty string, so the similarity is `0` and symmetric. -/
theorem c9_witness :
    similarity " " "q" = similarity "q" " " ∧ similarity " " "q" = 0 :=
  ⟨(c9_similarity_symm_and_empty_zero " " "q").1,
    (c9_similarity_symm_and_empty_zero " " "q").2 (Or.inl (by decide))⟩

/-! ## Concrete score evaluations -/

theorem seq_empty_left (b : String) : _sequence_score "" b = 0 := rfl

theorem seq_aa : _sequence_score "a" "a" = 1 := by
  unfold _sequence_score quick_ratio _calculate_ratio quickRatioMatches
  rw [if_neg (by decide : ¬("a".isEmpty = true ∨ "a".isEmpty = true))]
  rw [show ("a".data.bagInter "a".data).length = 1 from rfl]
  rw [show "a".length + "a".length = 2 from rfl]
  norm_num

theorem seq_ba : _sequence_score "b" "a" = 0 := by
  unfold _sequence_score quick_ratio _calculate_ratio quickRatioMatches
  rw [if_neg (by decide : ¬("b".isEmpty = true ∨ "a".isEmpty = true))]
  rw [show ("b".data.bagInter "a".data).length = 0 from rfl]
  rw [show "b".length + "a".length = 2 from rfl]
  norm_num

theorem score_candMatch (i : String) :
    _score_candidate (candMatch i) trackA = 3/5 := by
  show _sequence_score (_normalize (some "a")) (_normalize (some "a")) * (6/10) +
      _sequence_score (_normalize none) (_normalize (some "")) * (3/10) +
      _sequence_score (_normalize none) (_normalize (some "")) * (1/10) = 3/5
  rw [show _normalize (some "a") = "a" from rfl, show _normalize none = "" from rfl]
  rw [seq_aa, seq_empty_left]
  norm_num

theorem score_candMiss : _score_candidate candMiss trackA = 0 := by
  show _sequence_score (_normalize (some "b")) (_normalize (some "a")) * (6/10) +
      _sequence_score (_normalize none) (_normalize (some "")) * (3/10) +
      _sequence_score (_normalize none) (_normalize (some "")) * (1/10) = 0
  rw [show _normalize (some "b") = "b" from rfl, show _normalize (some "a") = "a" from rfl,
    show _normalize none = "" from rfl]
  rw [seq_ba, seq_empty_left]
  norm_num

theorem score_candBlank (i : String) (t : Track) :
    _score_candidate (candBlank i) t = 0 := by
  show _sequence_score (_normalize none) (_normalize (some t.title)) * (6/10) +
      _sequence_score (_normalize none) (_normalize (some t.artist)) * (3/10) +
      _sequence_score (_normalize none) (_normalize (some t.album)) * (1/10) = 0
  rw [show _normalize none = "" from rfl, seq_empty_left, seq_empty_left,
    seq_empty_left]
  norm_num

theorem resolve_one_candMatch (i : String) (h : i.isEmpty = false) :
    _resolve_one [candMatch i] trackA (3/5) = some i := by
  have hpick : _pick_best_match [candMatch i] trackA = (some (candMatch i), 3/5) := by
    unfold _pick_best_match _pick_go
    simp only [score_candMatch]
    rw [if_pos (by norm_num : (0:ℚ) < 3/5)]
    rfl
  unfold _resolve_one
  simp only [hpick]
  rw [if_pos (le_refl (3/5 : ℚ))]
  show (if i.isEmpty = true then none else some i) = some i
  rw [h]
  simp

theorem sequence_score_nonneg (a b : String) : 0 ≤ _sequence_score a b := by
  unfold _sequence_score quick_ratio _calculate_ratio
  split
  · exact le_refl 0
  · split
    · norm_num
    · positivity

theorem score_candidate_nonneg (c : Candidate) (track : Track) :
    0 ≤ _score_candidate c track := by
  unfold _score_candidate
  have h1 := sequence_score_nonneg (_normalize c.title) (_normalize (some track.title))
  have h2 := sequence_score_nonneg (_normalize c.artist) (_normalize (some track.artist))
  have h3 := sequence_score_nonneg (_normalize c.album) (_normalize (some track.album))
  have w1 : (0:ℚ) ≤ 6/10 := by norm_num
  have w2 : (0:ℚ) ≤ 3/10 := by norm_num
  have w3 : (0:ℚ) ≤ 1/10 := by norm_num
  exact add_nonneg (add_nonneg (mul_nonneg h1 w1) (mul_nonneg h2 w2))
    (mul_nonneg h3 w3)

/-! ## Resolver lemmas (claims C3 and C8) -/

theorem pick_best_snd (candidates : List Candidate) (track : Track) :
    (_pick_best_match candidates track).2 = maxScore candidates track := by
  unfold _pick_best_match maxScore
  exact pick_go_snd track candidates none 0

theorem pick_best_found (candidates : List Candidate) (track : Track)
    (h : 0 < maxScore candidates track) :
    _pick_best_match candidates track =
      (candidates.find? (fun c => decide
          (maxScore candidates track ≤ _score_candidate c track)),
        maxScore candidates track) := by
  unfold maxScore at h ⊢
  unfold _pick_best_match
  exact pick_go_found track candidates none 0 h

theorem find?_ext {α : Type} (p q : α → Bool) (l : List α)
    (h : ∀ x ∈ l, p x = q x) : l.find? p = l.find? q := by
  induction l with
  | nil => rfl
  | cons a rest ih =>
    have ha := h a (List.mem_cons_self a rest)
    cases hpa : p a with
    | true =>
      rw [List.find?_cons_of_pos _ hpa, List.find?_cons_of_pos _ (ha.symm.trans hpa)]
    | false =>
      rw [List.find?_cons_of_neg _ (by simp [hpa]),
        List.find?_cons_of_neg _ (by simp [← ha, hpa])]
      exact ih (fun x hx => h x (List.mem_cons_of_mem a hx))

/-- C3, counterexample to the claim as stated: with threshold `t = 0`
(inside `[0,1]`) and the non-empty candidate list `[candMiss]`, the maximal
candidate score equals `t` (both are `0`), yet the track is NOT resolved:
the strict `>` against the initial `best_score = 0.0` never selects a
candidate, so `_pick_best_match` returns `None` and the track is
unresolved. -/
theorem c3_counterexample :
    maxScore [candMiss] trackA = 0 ∧ ([candMiss] : List Candidate) ≠ [] ∧
      _resolve_one [candMiss] trackA 0 = none := by
  have hM : maxScore [candMiss] trackA = 0 := by
    unfold maxScore
    rw [List.map_cons, List.map_nil, score_candMiss, List.foldl_cons,
      List.foldl_nil, max_self]
  have hpick : _pick_best_match [candMiss] trackA = (none, 0) := by
    unfold _pick_best_match
    refine pick_go_stay trackA _ none 0 ?_
    unfold maxScore at hM
    exact hM
  refine ⟨hM, by simp, ?_⟩
  unfold _resolve_one
  simp only [hpick]

/-- C3 amended: for a non-empty candidate list and threshold `t ∈ [0,1]`,
(a) when the maximal candidate score equals `t`, `t` is positive, and the
first maximizer carries a non-empty identifier, the track resolves to that
identifier; (b) when the maximal score is strictly below `t`, the track is
unresolved. -/
theorem c3_threshold_amended (track : Track) (candidates : List Candidate)
    (t : ℚ) (_h1 : candidates ≠ []) (_h2 : 0 ≤ t) (_h3 : t ≤ 1) :
    (∀ c i, maxScore candidates track = t → 0 < t →
      candidates.find? (fun c' => decide
        (maxScore candidates track ≤ _score_candidate c' track)) = some c →
      c.id = some i → i.isEmpty = false →
      _resolve_one candidates track t = some i) ∧
    (maxScore candidates track < t → _resolve_one candidates track t = none) := by
  constructor
  · intro c i hMt h0 hfind hid hie
    have hfound := pick_best_found candidates track (by rw [hMt]; exact h0)
    rw [hfind, hMt] at hfound
    unfold _resolve_one
    simp only [hfound]
    rw [if_pos (le_refl t)]
    simp [hid, hie]
  · intro hlt
    have hsnd := pick_best_snd candidates track
    unfold _resolve_one
    cases hp : _pick_best_match candidates track with
    | mk fst snd =>
      rw [hp] at hsnd
      simp only at hsnd
      cases fst with
      | none => rfl
      | some best =>
        simp only
        rw [if_neg]
        rw [hsnd]
        exact not_le.mpr hlt

/-- Witness for C3 amended at a concrete input: one candidate with title
score exactly `3/5` against threshold `3/5` resolves to its id `"x"`. -/
theorem c3_witness : _resolve_one [candMatch "x"] trackA (3/5) = some "x" := by
  have hM : maxScore [candMatch "x"] trackA = 3/5 := by
    unfold maxScore
    rw [List.map_cons, List.map_nil, score_candMatch, List.foldl_cons,
      List.foldl_nil, max_eq_right (by norm_num : (0:ℚ) ≤ 3/5)]
  have hfind : ([candMatch "x"] : List Candidate).find? (fun c' => decide
      (maxScore [candMatch "x"] trackA ≤ _score_candidate c' trackA)) =
        some (candMatch "x") := by
    rw [List.find?_cons_of_pos]
    rw [hM, score_candMatch]
    exact decide_eq_true (le_refl (3/5 : ℚ))
  exact (c3_threshold_amended trackA [candMatch "x"] (3/5) (by simp)
    (by norm_num) (by norm_num)).1 (candMatch "x") "x" hM (by norm_num)
    hfind rfl rfl

/-- C8, counterexample to the claim as stated: two candidates both attain
the maximal score `0`, but the resolver selects NO candidate (the strict
`>` against the initial `best_score = 0.0` never fires), rather than the
first of them. -/
theorem c8_counterexample :
    ([candBlank "1", candBlank "2"] : List Candidate).countP (fun c => decide
        (_score_candidate c trackA =
          maxScore [candBlank "1", candBlank "2"] trackA)) = 2 ∧
      (_pick_best_match [candBlank "1", candBlank "2"] trackA).1 = none := by
  have hM : maxScore [candBlank "1", candBlank "2"] trackA = 0 := by
    unfold maxScore
    rw [List.map_cons, List.map_cons, List.map_nil, score_candBlank,
      score_candBlank, List.foldl_cons, List.foldl_cons, List.foldl_nil,
      max_self, max_self]
  constructor
  · rw [List.countP_cons, List.countP_cons, List.countP_nil, hM,
      score_candBlank, score_candBlank]
    simp
  · have hpick : _pick_best_match [candBlank "1", candBlank "2"] trackA =
        (none, 0) := by
      unfold _pick_best_match
      refine pick_go_stay trackA _ none 0 ?_
      unfold maxScore at hM
      exact hM
    rw [hpick]

/-- C8 amended: when the maximal score is positive (two or more candidates
attaining it), the resolver selects the first maximizer in input order —
the strict `>` comparison means a later equal score never displaces the
current best; when the maximal score is zero no candidate is selected. -/
theorem c8_tiebreak_amended (track : Track) (candidates : List Candidate)
    (h0 : 0 < maxScore candidates track)
    (_h2 : 2 ≤ candidates.countP (fun c => decide
      (_score_candidate c track = maxScore candidates track))) :
    _pick_best_match candidates track =
      (candidates.find? (fun c => decide
        (_score_candidate c track = maxScore candidates track)),
        maxScore candidates track) := by
  rw [pick_best_found candidates track h0]
  rw [find?_ext _ _ candidates (fun x hx => ?_)]
  apply decide_eq_decide.mpr
  have hle : _score_candidate x track ≤ maxScore candidates track := by
    unfold maxScore
    exact mem_le_foldl_max _ 0 _ (List.mem_map_of_mem _ hx)
  exact ⟨fun h => le_antisymm hle h, fun h => le_of_eq h.symm⟩

/-- Witness for C8 amended: two equal-maximal candidates with score `3/5`;
the first one, `candMatch "1"`, is selected. -/
theorem c8_witness :
    _pick_best_match [candMatch "1", candMatch "2"] trackA =
      (some (candMatch "1"), 3/5) := by
  have hM : maxScore [candMatch "1", candMatch "2"] trackA = 3/5 := by
    unfold maxScore
    rw [List.map_cons, List.map_cons, List.map_nil, score_candMatch,
      score_candMatch, List.foldl_cons, List.foldl_cons, List.foldl_nil,
      max_eq_right (by norm_num : (0:ℚ) ≤ 3/5), max_self]
  have hcount : 2 ≤ ([candMatch "1", candMatch "2"] : List Candidate).countP
      (fun c => decide (_score_candidate c trackA =
        maxScore [candMatch "1", candMatch "2"] trackA)) := by
    rw [List.countP_cons, List.countP_cons, List.countP_nil, hM,
      score_candMatch, score_candMatch]
    simp
  rw [c8_tiebreak_amended trackA [candMatch "1", candMatch "2"]
    (by rw [hM]; norm_num) hcount, hM]
  rw [List.find?_cons_of_pos]
  rw [score_candMatch]
  exact decide_eq_true rfl

/-! ## Resolution-batch lemmas (claims C4 and C10) -/

theorem available_step_none (threshold : ℚ)
    (st : List String × List String × List Track) (q : Track × List Candidate)
    (hres : _resolve_one q.2 q.1 threshold = none) :
    _available_step threshold st q = (st.1, st.2.1, st.2.2 ++ [q.1]) := by
  unfold _available_step
  rw [hres]

theorem available_step_stay (threshold : ℚ)
    (st : List String × List String × List Track) (q : Track × List Candidate)
    (s : String) (hres : _resolve_one q.2 q.1 threshold = some s)
    (hmem : s ∈ st.2.1) : _available_step threshold st q = st := by
  unfold _available_step
  rw [hres]
  simp only [if_pos hmem]

theorem available_step_new (threshold : ℚ)
    (st : List String × List String × List Track) (q : Track × List Candidate)
    (s : String) (hres : _resolve_one q.2 q.1 threshold = some s)
    (hmem : s ∉ st.2.1) :
    _available_step threshold st q = (st.1 ++ [s], s :: st.2.1, st.2.2) := by
  unfold _available_step
  rw [hres]
  simp only [if_neg hmem]

theorem batch_missing_sublist (threshold : ℚ) :
    ∀ (qs : List (Track × List Candidate))
      (st : List String × List String × List Track),
      ∃ m, (qs.foldl (_available_step threshold) st).2.2 = st.2.2 ++ m ∧
        List.Sublist m (qs.map Prod.fst) := by
  intro qs
  induction qs with
  | nil => exact fun st => ⟨[], by simp⟩
  | cons q rest ih =>
    intro st
    rw [List.foldl_cons, List.map_cons]
    cases hres : _resolve_one q.2 q.1 threshold with
    | none =>
      rw [available_step_none threshold st q hres]
      obtain ⟨m, hm, hsub⟩ := ih (st.1, st.2.1, st.2.2 ++ [q.1])
      refine ⟨q.1 :: m, ?_, List.Sublist.cons₂ q.1 hsub⟩
      rw [hm]
      simp
    | some s =>
      by_cases hmem : s ∈ st.2.1
      · rw [available_step_stay threshold st q s hres hmem]
        obtain ⟨m, hm, hsub⟩ := ih st
        exact ⟨m, hm, List.Sublist.cons q.1 hsub⟩
      · rw [available_step_new threshold st q s hres hmem]
        obtain ⟨m, hm, hsub⟩ := ih (st.1 ++ [s], s :: st.2.1, st.2.2)
        exact ⟨m, hm, List.Sublist.cons q.1 hsub⟩

theorem batch_set_mem (threshold : ℚ) :
    ∀ (qs : List (Track × List Candidate))
      (st : List String × List String × List Track) (a : String),
      a ∈ (qs.foldl (_available_step threshold) st).2.1 ↔
        a ∈ st.2.1 ∨ ∃ q ∈ qs, _resolve_one q.2 q.1 threshold = some a := by
  intro qs
  induction qs with
  | nil => simp
  | cons q rest ih =>
    intro st a
    rw [List.foldl_cons]
    cases hres : _resolve_one q.2 q.1 threshold with
    | none =>
      rw [available_step_none threshold st q hres, ih]
      constructor
      · rintro (h | ⟨p, hp, hps⟩)
        · exact Or.inl h
        · exact Or.inr ⟨p, List.mem_cons_of_mem q hp, hps⟩
      · rintro (h | ⟨p, hp, hps⟩)
        · exact Or.inl h
        · rcases List.mem_cons.mp hp with rfl | hp'
          · rw [hres] at hps
            cases hps
          · exact Or.inr ⟨p, hp', hps⟩
    | some s =>
      by_cases hmem : s ∈ st.2.1
      · rw [available_step_stay threshold st q s hres hmem, ih]
        constructor
        · rintro (h | ⟨p, hp, hps⟩)
          · exact Or.inl h
          · exact Or.inr ⟨p, List.mem_cons_of_mem q hp, hps⟩
        · rintro (h | ⟨p, hp, hps⟩)
          · exact Or.inl h
          · rcases List.mem_cons.mp hp with rfl | hp'
            · rw [hres] at hps
              injection hps with he
              subst he
              exact Or.inl hmem
            · exact Or.inr ⟨p, hp', hps⟩
      · rw [available_step_new threshold st q s hres hmem, ih]
        simp only [List.mem_cons]
        constructor
        · rintro ((h | h) | ⟨p, hp, hps⟩)
          · exact Or.inr ⟨q, Or.inl rfl, by rw [hres, h]⟩
          · exact Or.inl h
          · exact Or.inr ⟨p, Or.inr hp, hps⟩
        · rintro (h | ⟨p, hp, hps⟩)
          · exact Or.inl (Or.inr h)
          · rcases hp with rfl | hp'
            · rw [hres] at hps
              injection hps with he
              subst he
              exact Or.inl (Or.inl rfl)
            · exact Or.inr ⟨p, hp', hps⟩

theorem batch_ids_invariant (threshold : ℚ) :
    ∀ (qs : List (Track × List Candidate))
      (st : List String × List String × List Track),
      st.1.Nodup → (∀ a, a ∈ st.1 ↔ a ∈ st.2.1) →
      (qs.foldl (_available_step threshold) st).1.Nodup ∧
        (∀ a, a ∈ (qs.foldl (_available_step threshold) st).1 ↔
          a ∈ (qs.foldl (_available_step threshold) st).2.1) := by
  intro qs
  induction qs with
  | nil => exact fun st h1 h2 => ⟨h1, h2⟩
  | cons q rest ih =>
    intro st h1 h2
    rw [List.foldl_cons]
    cases hres : _resolve_one q.2 q.1 threshold with
    | none =>
      rw [available_step_none threshold st q hres]
      exact ih _ h1 h2
    | some s =>
      by_cases hmem : s ∈ st.2.1
      · rw [available_step_stay threshold st q s hres hmem]
        exact ih _ h1 h2
      · rw [available_step_new threshold st q s hres hmem]
        apply ih
        · rw [List.nodup_append]
          refine ⟨h1, List.nodup_singleton s, ?_⟩
          intro a ha hs
          rw [List.mem_singleton] at hs
          subst hs
          exact hmem ((h2 a).mp ha)
        · intro a
          simp only [List.mem_append, List.mem_cons, List.not_mem_nil, or_false]
          constructor
          · rintro (h | h)
            · exact Or.inr ((h2 a).mp h)
            · exact Or.inl h
          · rintro (h | h)
            · exact Or.inr h
            · exact Or.inl ((h2 a).mpr h)

/-- C10: for every threshold and every collaborator behavior (an arbitrary
list of per-track search responses), the `missing_tracks` list returned by
the resolution batch is an order-preserving subsequence of the input track
list: each input track contributes at most one entry, relative order is
preserved, and nothing outside the input appears.  The second conjunct
restates this through the connection-level wrapper. -/
theorem c10_missing_subsequence (threshold : ℚ)
    (queries : List (Track × List Candidate)) (nav : Navidrome)
    (tracks : List Track) :
    List.Sublist (_resolve_queries threshold queries).2 (queries.map Prod.fst) ∧
      List.Sublist (_get_available_navidrome_tracks nav tracks threshold).2 tracks := by
  constructor
  · obtain ⟨m, hm, hsub⟩ := batch_missing_sublist threshold queries ([], [], [])
    unfold _resolve_queries
    simp only
    rw [hm]
    simpa using hsub
  · obtain ⟨m, hm, hsub⟩ := batch_missing_sublist threshold
      (tracks.map (fun t => (t, _search_tracks nav t))) ([], [], [])
    unfold _get_available_navidrome_tracks _resolve_queries
    simp only
    rw [hm]
    simp only [List.nil_append]
    have hid : (tracks.map (fun t => (t, _search_tracks nav t))).map Prod.fst = tracks := by
      rw [List.map_map]
      exact List.map_congr_left (fun t _ => rfl) |>.trans (List.map_id tracks)
    rw [hid] at hsub
    exact hsub

/-- C4: duplicate suppression.  If a query resolves to an identifier
already produced by an earlier query, processing it changes nothing (the
later track enters neither `matchedIds` nor `missingTracks`); that
identifier occurs exactly once in `matchedIds`; and `matchedIds` is always
duplicate-free. -/
theorem c4_dedup_invariant (threshold : ℚ)
    (q₁ q₂ : List (Track × List Candidate)) (t : Track)
    (cs : List Candidate) (s : String)
    (hres : _resolve_one cs t threshold = some s)
    (hearlier : ∃ p ∈ q₁, _resolve_one p.2 p.1 threshold = some s) :
    _resolve_queries threshold (q₁ ++ (t, cs) :: q₂) =
        _resolve_queries threshold (q₁ ++ q₂) ∧
      (_resolve_queries threshold (q₁ ++ (t, cs) :: q₂)).1.count s = 1 ∧
      ∀ queries, (_resolve_queries threshold queries).1.Nodup := by
  have hmem1 : s ∈ ((q₁.foldl (_available_step threshold) ([], [], [])).2.1) := by
    rw [batch_set_mem threshold q₁ ([], [], []) s]
    exact Or.inr hearlier
  have hfold : (q₁ ++ (t, cs) :: q₂).foldl (_available_step threshold) ([], [], []) =
      (q₁ ++ q₂).foldl (_available_step threshold) ([], [], []) := by
    rw [List.foldl_append, List.foldl_append, List.foldl_cons,
      available_step_stay threshold _ (t, cs) s hres hmem1]
  have hnodup : ∀ queries : List (Track × List Candidate),
      (_resolve_queries threshold queries).1.Nodup := by
    intro queries
    exact (batch_ids_invariant threshold queries ([], [], [])
      List.nodup_nil (by simp)).1
  refine ⟨?_, ?_, hnodup⟩
  · unfold _resolve_queries
    rw [hfold]
  · apply List.count_eq_one_of_mem (hnodup (q₁ ++ (t, cs) :: q₂))
    have hiff := (batch_ids_invariant threshold (q₁ ++ (t, cs) :: q₂)
      ([], [], []) List.nodup_nil (by simp)).2 s
    unfold _resolve_queries
    simp only
    rw [hiff, batch_set_mem threshold (q₁ ++ (t, cs) :: q₂) ([], [], []) s]
    refine Or.inr ⟨(t, cs), ?_, hres⟩
    simp

/-- Witness for C4: the same query `(trackA, [candMatch "x"])` twice; the
second occurrence resolves to the already-seen id `"x"` and is dropped
from both lists, and `"x"` appears exactly once. -/
theorem c4_witness :
    _resolve_queries (3/5) ([(trackA, [candMatch "x"])] ++
        (trackA, [candMatch "x"]) :: []) =
      _resolve_queries (3/5) ([(trackA, [candMatch "x"])] ++ []) ∧
    (_resolve_queries (3/5) ([(trackA, [candMatch "x"])] ++
        (trackA, [candMatch "x"]) :: [])).1.count "x" = 1 :=
  have h := c4_dedup_invariant (3/5) [(trackA, [candMatch "x"])] []
    trackA [candMatch "x"] "x" (resolve_one_candMatch "x" rfl)
    ⟨(trackA, [candMatch "x"]), by simp, resolve_one_candMatch "x" rfl⟩
  ⟨h.1, h.2.1⟩

/-! ## Connection-level batch evaluations for the fixtures -/

theorem search_single (nav : Navidrome)
    (h : nav.search2 "a" = .ok (.many [candMatch "id1"])) :
    _search_tracks nav trackA = [candMatch "id1"] := by
  have e : _search_tracks nav trackA =
      (match nav.search2 "a" with
       | .error _ => []
       | .ok songs => _ensure_iterable_songs songs) := rfl
  rw [e, h]
  rfl

theorem search_absent (nav : Navidrome) (h : nav.search2 "a" = .ok .absent) :
    _search_tracks nav trackA = [] := by
  have e : _search_tracks nav trackA =
      (match nav.search2 "a" with
       | .error _ => []
       | .ok songs => _ensure_iterable_songs songs) := rfl
  rw [e, h]
  rfl

theorem batch_single (nav : Navidrome)
    (h : nav.search2 "a" = .ok (.many [candMatch "id1"])) :
    _get_available_navidrome_tracks nav [trackA] (3/5) = (["id1"], []) := by
  unfold _get_available_navidrome_tracks
  rw [List.map_cons, List.map_nil, search_single nav h]
  unfold _resolve_queries
  rw [List.foldl_cons,
    available_step_new (3/5) ([], [], []) (trackA, [candMatch "id1"]) "id1"
      (resolve_one_candMatch "id1" rfl) (by simp),
    List.foldl_nil]
  rfl

theorem batch_absent (nav : Navidrome) (h : nav.search2 "a" = .ok .absent) :
    _get_available_navidrome_tracks nav [trackA] (3/5) = ([], [trackA]) := by
  unfold _get_available_navidrome_tracks
  rw [List.map_cons, List.map_nil, search_absent nav h]
  unfold _resolve_queries
  rw [List.foldl_cons,
    available_step_none (3/5) ([], [], []) (trackA, []) rfl,
    List.foldl_nil]
  rfl

/-! ## Missing-Track Reporter lemmas (claim C7) -/

theorem persist_empty_eq (name : String) (fs : FS) :
    _persist_missing_tracks name [] true fs = ((_delete_csv name fs).1, .ok ()) := by
  unfold _persist_missing_tracks
  rw [if_neg (by decide : ¬¬(true = true))]
  rw [if_neg (by decide : ¬¬(([] : List Track).isEmpty = true))]

/-- C7: with reporting enabled and an empty missing list, the reporter
never raises (every internal I/O failure is swallowed), and — when the
unlink call does not fault — it deletes any existing artifact for the
playlist name and a second identical call is a no-op that again raises no
error (absence of the artifact is not an error). -/
theorem c7_reporter_empty_idempotent (fs : FS) (name : String) :
    (_persist_missing_tracks name [] true fs).2 = .ok () ∧
      (fs.unlinkErr (_csv_file name) = none →
        _csv_file name ∉ (_persist_missing_tracks name [] true fs).1.files ∧
        (_persist_missing_tracks name [] true
            ((_persist_missing_tracks name [] true fs).1)).1 =
          (_persist_missing_tracks name [] true fs).1 ∧
        (_persist_missing_tracks name [] true
            ((_persist_missing_tracks name [] true fs).1)).2 = .ok ()) := by
  refine ⟨by rw [persist_empty_eq], ?_⟩
  intro hunlink
  have hdel : ∀ fsx : FS, _csv_file name ∉ fsx.files →
      _delete_csv name fsx = (fsx, .ok ()) := by
    intro fsx hmem
    unfold _delete_csv
    rw [if_neg hmem]
  by_cases hmem : _csv_file name ∈ fs.files
  · have h1 : _delete_csv name fs =
        ({ fs with files := fs.files.filter (fun f => decide (f ≠ _csv_file name)) },
          .ok ()) := by
      unfold _delete_csv
      rw [if_pos hmem, hunlink]
    have hout : _csv_file name ∉ (_persist_missing_tracks name [] true fs).1.files := by
      rw [persist_empty_eq, h1]
      simp
    refine ⟨hout, ?_, ?_⟩
    · rw [persist_empty_eq name ((_persist_missing_tracks name [] true fs).1),
        hdel _ hout]
    · rw [persist_empty_eq]
  · have hout : _csv_file name ∉ (_persist_missing_tracks name [] true fs).1.files := by
      rw [persist_empty_eq, hdel fs hmem]
      exact hmem
    refine ⟨hout, ?_, ?_⟩
    · rw [persist_empty_eq name ((_persist_missing_tracks name [] true fs).1),
        hdel _ hout]
    · rw [persist_empty_eq]

/-- Witness for C7: store holding `a.csv` with no fault injection; the
call removes the artifact, the repeated call changes nothing, and both
calls return without raising. -/
theorem c7_witness :
    (_persist_missing_tracks "a" [] true fsA).2 = .ok () ∧
      "a.csv" ∉ (_persist_missing_tracks "a" [] true fsA).1.files ∧
      (_persist_missing_tracks "a" [] true
          ((_persist_missing_tracks "a" [] true fsA).1)).1 =
        (_persist_missing_tracks "a" [] true fsA).1 := by
  have h := c7_reporter_empty_idempotent fsA "a"
  have h2 := h.2 rfl
  exact ⟨h.1, h2.1, h2.2.1⟩

/-! ## Reconciler lemmas (claims C1, C5, C6) -/

theorem find_existing_of_error (nav : Navidrome) (playlist_name : String)
    (e : PyErr) (h : nav.getPlaylists = .error e) :
    _find_existing_playlist nav playlist_name = ([.getPlaylistsCall], none) := by
  unfold _find_existing_playlist
  rw [h]

/-- C1, counterexample to the claim as stated: on `navListFail` the
`getPlaylists` call raises, yet the reconciliation of the playlist is NOT
aborted — the engine logs the failure, treats the playlist as absent,
CREATES a new playlist, ADDS tracks to it, and returns successfully. -/
theorem c1_counterexample :
    Effect.createCall "P" ∈
        (update_or_create_navidrome_playlist navListFail pP [trackA] uiStd fs0).1 ∧
      (update_or_create_navidrome_playlist navListFail pP [trackA] uiStd fs0).1 =
        [.getPlaylistsCall, .createCall "P", .addTracksCall "np1" ["id1"],
          .reportMissing "P" [] true] ∧
      (update_or_create_navidrome_playlist navListFail pP [trackA] uiStd fs0).2.2 =
        .ok () := by
  have hb : _get_available_navidrome_tracks navListFail [trackA]
      uiStd.match_confidence_threshold = (["id1"], []) := batch_single navListFail rfl
  have htr : (update_or_create_navidrome_playlist navListFail pP [trackA] uiStd fs0).1 =
      [.getPlaylistsCall, .createCall "P", .addTracksCall "np1" ["id1"],
        .reportMissing "P" [] true] := by
    unfold update_or_create_navidrome_playlist
    rw [hb]
    rfl
  have hok : (update_or_create_navidrome_playlist navListFail pP [trackA] uiStd fs0).2.2 =
      .ok () := by
    unfold update_or_create_navidrome_playlist
    rw [hb]
    rfl
  exact ⟨by rw [htr]; decide, htr, hok⟩

/-- C1 amended: when listing the destination playlists raises, the failure
is logged and swallowed — the lookup reports "no existing playlist", so no
delete call is made and reconciliation proceeds by creating a fresh
playlist (the outcome being that of the create call); the claim's "abort
with no create/delete/add calls" does not hold. -/
theorem c1_listfailure_amended (nav : Navidrome) (playlist : Playlist)
    (append : Bool) (e : PyErr) (h : nav.getPlaylists = .error e) :
    (_find_existing_playlist nav playlist.name).2 = none ∧
      _ensure_playlist_id nav playlist append =
        ([.getPlaylistsCall, .createCall playlist.name],
          (_create_playlist nav playlist.name).2) := by
  have hfind := find_existing_of_error nav playlist.name e h
  constructor
  · rw [hfind]
  · unfold _ensure_playlist_id
    rw [hfind]
    rfl

/-- Witness for C1 amended on `navListFail`: the lookup yields nothing and
the reconciler goes straight to a (successful) create call. -/
theorem c1_witness :
    (_find_existing_playlist navListFail pP.name).2 = none ∧
      _ensure_playlist_id navListFail pP false =
        ([.getPlaylistsCall, .createCall "P"], .ok "np1") := by
  have h := c1_listfailure_amended navListFail pP false .other rfl
  exact ⟨h.1, h.2⟩

/-- C5: when a destination playlist with the target name exists:
in replace mode (`append = false`) the engine deletes it and then creates
a new one; a raising delete is fatal for this playlist — re-raised as
`RuntimeError`, no create call, and the whole reconciliation run returns
caught with no further destination call; in append mode (`append = true`)
the existing identifier is reused and no delete call is made. -/
theorem c5_replace_append (nav : Navidrome) (playlist : Playlist)
    (entry : NavPlaylist)
    (hfind : (_find_existing_playlist nav playlist.name).2 = some entry) :
    (nav.deletePlaylist entry.id = .ok () →
      _ensure_playlist_id nav playlist false =
        ([.getPlaylistsCall, .deleteCall entry.id, .createCall playlist.name],
          (_create_playlist nav playlist.name).2)) ∧
    (∀ e, nav.deletePlaylist entry.id = .error e →
      _ensure_playlist_id nav playlist false =
        ([.getPlaylistsCall, .deleteCall entry.id], .error .runtime)) ∧
    (_ensure_playlist_id nav playlist true =
      ([.getPlaylistsCall], .ok (pyStr entry.id))) ∧
    (∀ e (tracks : List Track) (ui : UserInputs) (fs : FS),
      nav.deletePlaylist entry.id = .error e →
      ui.append_instead_of_sync = false →
      (_get_available_navidrome_tracks nav tracks
        ui.match_confidence_threshold).1.isEmpty = false →
      update_or_create_navidrome_playlist nav playlist tracks ui fs =
        ([.getPlaylistsCall, .deleteCall entry.id], fs, .ok ())) := by
  have hpair : _find_existing_playlist nav playlist.name =
      ([.getPlaylistsCall], some entry) :=
    Prod.ext rfl hfind
  have hdel_err : ∀ e, nav.deletePlaylist entry.id = .error e →
      _ensure_playlist_id nav playlist false =
        ([.getPlaylistsCall, .deleteCall entry.id], .error .runtime) := by
    intro e hdel
    unfold _ensure_playlist_id
    rw [hpair]
    simp only
    rw [hdel]
    rfl
  refine ⟨?_, hdel_err, ?_, ?_⟩
  · intro hdel
    unfold _ensure_playlist_id
    rw [hpair]
    simp only
    rw [hdel]
    rfl
  · unfold _ensure_playlist_id
    rw [hpair]
  · intro e tracks ui fs hdel happend hids
    have hens := hdel_err e hdel
    unfold update_or_create_navidrome_playlist
    simp only
    rw [hids, happend, hens]
    rfl

/-- Witness for C5 on `navFound`, where playlist `P` exists with id
`pid9`: replace mode deletes then creates; append mode reuses `pid9` with
no delete call. -/
theorem c5_witness :
    _ensure_playlist_id navFound pP false =
        ([.getPlaylistsCall, .deleteCall (some "pid9"), .createCall "P"],
          .ok "new1") ∧
      _ensure_playlist_id navFound pP true = ([.getPlaylistsCall], .ok "pid9") := by
  have h := c5_replace_append navFound pP ⟨some "pid9", some "P"⟩ (by decide)
  constructor
  · rw [h.1 rfl]
    rfl
  · exact h.2.2.1

/-- C6: when the resolution batch yields no matched identifier, the engine
makes no destination call at all (no lookup, create, delete, add-tracks or
set-description) and still invokes the Missing-Track Reporter with the
batch's missing tracks before returning successfully. -/
theorem c6_empty_match_skips_mutation (nav : Navidrome) (playlist : Playlist)
    (tracks : List Track) (ui : UserInputs) (fs : FS)
    (hids : (_get_available_navidrome_tracks nav tracks
      ui.match_confidence_threshold).1.isEmpty = true) :
    update_or_create_navidrome_playlist nav playlist tracks ui fs =
      ([.reportMissing playlist.name
          (_get_available_navidrome_tracks nav tracks
            ui.match_confidence_threshold).2 ui.write_missing_as_csv],
        (_persist_missing_tracks playlist.name
          (_get_available_navidrome_tracks nav tracks
            ui.match_confidence_threshold).2 ui.write_missing_as_csv fs).1,
        .ok ()) := by
  unfold update_or_create_navidrome_playlist
  simp only
  rw [hids]
  rfl

/-- Witness for C6 on `navEmptySearch`: the track resolves to nothing, the
trace holds only the reporter invocation, and the artifact for the missing
track is written. -/
theorem c6_witness :
    (update_or_create_navidrome_playlist navEmptySearch pP [trackA] uiStd fs0).1 =
        [.reportMissing "P" [trackA] true] ∧
      (update_or_create_navidrome_playlist navEmptySearch pP [trackA] uiStd fs0).2.2 =
        .ok () ∧
      (update_or_create_navidrome_playlist navEmptySearch pP [trackA]
        uiStd fs0).2.1.files = ["P.csv"] := by
  have hb : _get_available_navidrome_tracks navEmptySearch [trackA]
      uiStd.match_confidence_threshold = ([], [trackA]) := batch_absent navEmptySearch rfl
  have h := c6_empty_match_skips_mutation navEmptySearch pP [trackA] uiStd fs0
    (by rw [hb]; rfl)
  rw [h, hb]
  refine ⟨rfl, rfl, ?_⟩
  decide

/-! ## Orchestrator lemmas (claim C2) -/

/-- Total characterization of `_ensure_playlist_id` used for case
analysis. -/
theorem ensure_eq (nav : Navidrome) (playlist : Playlist) (append : Bool) :
    _ensure_playlist_id nav playlist append =
      match (_find_existing_playlist nav playlist.name).2, append with
      | some existing, false =>
        (match nav.deletePlaylist existing.id with
         | .ok _ =>
           ([.getPlaylistsCall, .deleteCall existing.id] ++
             (_create_playlist nav playlist.name).1,
             (_create_playlist nav playlist.name).2)
         | .error _ =>
           ([.getPlaylistsCall, .deleteCall existing.id], .error .runtime))
      | some existing, true => ([.getPlaylistsCall], .ok (pyStr existing.id))
      | none, _ =>
        ([.getPlaylistsCall] ++ (_create_playlist nav playlist.name).1,
          (_create_playlist nav playlist.name).2) := rfl

theorem create_error_other (nav : Navidrome) (name : String)
    (h : (_create_playlist nav name).2 = .error .other) :
    nav.createPlaylist name = .error .other := by
  unfold _create_playlist at h
  cases hcp : nav.createPlaylist name with
  | error e =>
    rw [hcp] at h
    simp only [] at h
    injection h with he
    rw [he]
  | ok o =>
    cases o with
    | none =>
      rw [hcp] at h
      simp only [] at h
      injection h with he
      exact PyErr.noConfusion he
    | some pid =>
      rw [hcp] at h
      simp only [] at h
      exact Except.noConfusion h

theorem ensure_error_other (nav : Navidrome) (playlist : Playlist)
    (append : Bool)
    (h : (_ensure_playlist_id nav playlist append).2 = .error .other) :
    nav.createPlaylist playlist.name = .error .other := by
  rw [ensure_eq] at h
  cases hf : (_find_existing_playlist nav playlist.name).2 with
  | none =>
    rw [hf] at h
    simp only [] at h
    exact create_error_other nav playlist.name h
  | some entry =>
    rw [hf] at h
    cases append with
    | true =>
      simp only [] at h
      exact Except.noConfusion h
    | false =>
      simp only [] at h
      cases hd : nav.deletePlaylist entry.id with
      | ok u =>
        rw [hd] at h
        simp only [] at h
        exact create_error_other nav playlist.name h
      | error e2 =>
        rw [hd] at h
        simp only [] at h
        injection h with he
        exact PyErr.noConfusion he

theorem update_ok (nav : Navidrome) (playlist : Playlist)
    (tracks : List Track) (ui : UserInputs) (fs : FS)
    (hc : ∀ name, nav.createPlaylist name ≠ .error .other) :
    (update_or_create_navidrome_playlist nav playlist tracks ui fs).2.2 =
      .ok () := by
  unfold update_or_create_navidrome_playlist
  simp only
  by_cases hids : (_get_available_navidrome_tracks nav tracks
      ui.match_confidence_threshold).1.isEmpty = true
  · rw [if_pos hids]
  · rw [if_neg hids]
    cases he : (_ensure_playlist_id nav playlist ui.append_instead_of_sync).2 with
    | error e =>
      cases e with
      | runtime => rfl
      | other =>
        exact absurd (ensure_error_other nav playlist ui.append_instead_of_sync he)
          (hc playlist.name)
    | ok pid =>
      simp only
      cases ha : (_add_tracks nav pid (_get_available_navidrome_tracks nav tracks
          ui.match_confidence_threshold).1).2 with
      | error e2 => rfl
      | ok u => rfl

theorem sync_ok_all (nav : Navidrome) (playlists : List Playlist)
    (tracksFor : Playlist → List Track) (ui : UserInputs)
    (hc : ∀ name, nav.createPlaylist name ≠ .error .other) :
    ∀ fs : FS, (spotify_playlist_sync nav playlists tracksFor ui fs).2.2 = .ok () ∧
      ∀ p ∈ playlists, Effect.syncStarted p.name ∈
        (spotify_playlist_sync nav playlists tracksFor ui fs).1 := by
  induction playlists with
  | nil =>
    intro fs
    exact ⟨rfl, by simp⟩
  | cons p rest ih =>
    intro fs
    unfold spotify_playlist_sync
    simp only
    by_cases ht : (tracksFor p).isEmpty = true
    · rw [if_pos ht]
      obtain ⟨h1, h2⟩ := ih fs
      refine ⟨h1, ?_⟩
      intro q hq
      rcases List.mem_cons.mp hq with rfl | hq'
      · exact List.mem_cons_self _ _
      · exact List.mem_cons_of_mem _ (h2 q hq')
    · rw [if_neg ht]
      have hu := update_ok nav p (tracksFor p) ui fs hc
      rw [hu]
      simp only
      obtain ⟨h1, h2⟩ := ih
        ((update_or_create_navidrome_playlist nav p (tracksFor p) ui fs).2.1)
      refine ⟨h1, ?_⟩
      intro q hq
      rcases List.mem_cons.mp hq with rfl | hq'
      · exact List.mem_cons_self _ _
      · exact List.mem_cons_of_mem _
          (List.mem_append_right _ (h2 q hq'))

/-- C2, counterexample to the claim as stated: on `navCreateRaise` the
create call itself raises a non-`RuntimeError` exception while reconciling
`P1`; the exception escapes `update_or_create_navidrome_playlist`, escapes
the orchestrator loop, and playlist `P2` is never processed. -/
theorem c2_counterexample :
    (update_or_create_navidrome_playlist navCreateRaise p1 [trackA] uiStd fs0).2.2 =
        .error .other ∧
      (spotify_playlist_sync navCreateRaise [p1, p2] (fun _ => [trackA])
        uiStd fs0).2.2 = .error .other ∧
      Effect.syncStarted "P2" ∉
        (spotify_playlist_sync navCreateRaise [p1, p2] (fun _ => [trackA])
          uiStd fs0).1 := by
  have hb : _get_available_navidrome_tracks navCreateRaise [trackA]
      uiStd.match_confidence_threshold = (["id1"], []) :=
    batch_single navCreateRaise rfl
  have hu : update_or_create_navidrome_playlist navCreateRaise p1 [trackA]
      uiStd fs0 = ([.getPlaylistsCall, .createCall "P1"], fs0, .error .other) := by
    unfold update_or_create_navidrome_playlist
    rw [hb]
    rfl
  have hs : spotify_playlist_sync navCreateRaise [p1, p2] (fun _ => [trackA])
      uiStd fs0 =
      ([.syncStarted "P1", .getPlaylistsCall, .createCall "P1"], fs0,
        .error .other) := by
    unfold spotify_playlist_sync
    simp only
    rw [if_neg (show ¬(([trackA] : List Track).isEmpty = true) by decide)]
    rw [hu]
    rfl
  exact ⟨by rw [hu], by rw [hs], by rw [hs]; decide⟩

/-- C2 amended: provided the `createPlaylist` call itself never raises a
non-`RuntimeError` exception, every destination failure (delete raising,
add-tracks raising, a create response with no identifier) is fatal for the
current playlist only: the per-playlist invocation always returns without
an exception and the orchestrator starts every playlist in the batch; an
exception raised by the create call itself, however, escapes the
per-playlist invocation and aborts the remaining playlists (see the
counterexample). -/
theorem c2_failure_isolation_amended (nav : Navidrome)
    (playlists : List Playlist) (tracksFor : Playlist → List Track)
    (ui : UserInputs) (fs : FS)
    (hc : ∀ name, nav.createPlaylist name ≠ .error .other) :
    (∀ (p : Playlist) (tracks : List Track) (fsx : FS),
      (update_or_create_navidrome_playlist nav p tracks ui fsx).2.2 = .ok ()) ∧
    (spotify_playlist_sync nav playlists tracksFor ui fs).2.2 = .ok () ∧
    ∀ p ∈ playlists, Effect.syncStarted p.name ∈
      (spotify_playlist_sync nav playlists tracksFor ui fs).1 :=
  ⟨fun p tracks fsx => update_ok nav p tracks ui fsx hc,
    (sync_ok_all nav playlists tracksFor ui hc fs).1,
    (sync_ok_all nav playlists tracksFor ui hc fs).2⟩

/-- Witness for C2 amended on `navFlaky`, whose delete and add-tracks
calls raise: both playlists are started and the loop returns without an
exception. -/
theorem c2_witness :
    (spotify_playlist_sync navFlaky [p1, p2] (fun _ => [trackA])
        uiStd fs0).2.2 = .ok () ∧
      Effect.syncStarted "P1" ∈
        (spotify_playlist_sync navFlaky [p1, p2] (fun _ => [trackA])
          uiStd fs0).1 ∧
      Effect.syncStarted "P2" ∈
        (spotify_playlist_sync navFlaky [p1, p2] (fun _ => [trackA])
          uiStd fs0).1 := by
  have h := c2_failure_isolation_amended navFlaky [p1, p2] (fun _ => [trackA])
    uiStd fs0 (fun name hx => Except.noConfusion hx)
  exact ⟨h.2.1, h.2.2 p1 (by simp), h.2.2 p2 (by simp)⟩

end PlaylistSync
